import Mathlib

/-!
Verification development for the Kick bot's guided-practice core:
the stepwise field-collection wizard (src/handlers/practice.py), its
debounced input accumulator, the entry committer (complete_practice /
database.create_entry), the reminder entry point
(src/handlers/reminders.py handle_reminder_response) and the callback
router (src/main.py handle_callback).

The Python state is embedded shallowly:
  - context.user_data becomes the PState structure (mode, current_field,
    practice_data, current_answer, confirmation_message_id,
    field_prompt_message_id);
  - the module-level per-user dictionaries field_message_parts and
    field_timers become AccState (a single user's slots; an absent
    dictionary key is modelled as none);
  - the SQLite entries/refusals tables become Db;
  - outbound Telegram messages become a list of Directive values, and
    message ids are drawn from a counter (nextMsgId);
  - asynchronous persistence failure is an explicit Boolean parameter
    (persistFails), matching the spec's "simulated persistence failure";
  - the 0.5 second debounce delay is measured in tenths of a second.
-/

namespace Kick

/-- One field of the fixed five-step practice, from config.PRACTICE_FIELDS. -/
structure Field where
  name : String
  prompt : String
  required : Bool
  deriving Repr, DecidableEq

/-- config.PRACTICE_FIELDS: the five fields in fixed order. -/
def PRACTICE_FIELDS : List Field :=
  [ ⟨"content",
     "Обрати внимание на какое-то содержание, которое находится в поле внимания (внутреннее или внешнее).",
     true⟩,
    ⟨"attitude",
     "Осознай своё отношение к этому содержанию - обрати внимание на тело, на баланс расслабления и напряжения по поводу этого содержания.",
     true⟩,
    ⟨"form",
     "Подбери свою форму выражения этого отношения, вербализовав его, используя наши формы согласия и отрицания (да-принимающее, нет-принимающее, да-отрицающее, нет-отрицающее).",
     true⟩,
    ⟨"body",
     "Озвучь для себя и обрати внимание соответствует ли то, что ты осознал телесной реакции.",
     true⟩,
    ⟨"response",
     "Обрати внимание, что будет происходить с тобой после осознания.",
     true⟩ ]

/-- Name of field number i (PRACTICE_FIELDS[i]['name']). -/
def fieldName (i : Nat) : String :=
  (PRACTICE_FIELDS.getD i ⟨"", "", true⟩).name

/-- Abstract outbound directives: each constructor is one concrete
message/edit the practice and reminder handlers send. -/
inductive Directive where
  /-- send_field_confirmation's message: accumulated text plus the OK button. -/
  | showConfirmation (text : String)
  /-- send_field_prompt's message for the field, with or without the four
  form buttons and the back button. -/
  | showPrompt (fieldIdx : Nat) (formButtons : Bool) (backButton : Bool)
  /-- the "Ответ не может быть пустым. Отправьте текст." reply. -/
  | validationError
  /-- the "Все готово к сохранению" message with back/save buttons. -/
  | readyToSave
  /-- BotPhrases.PRACTICE_SAVED after a successful commit. -/
  | saved
  /-- the "Ошибка при сохранении записи. Попробуйте еще раз." reply. -/
  | saveError
  /-- the generic "Произошла ошибка. Попробуйте еще раз." reply of the
  except blocks. -/
  | genericError
  /-- the "Это первый шаг." callback answer on goBack at field 0. -/
  | firstStepNotice
  /-- field_back re-showing a previously answered regular field: prompt,
  prior answer, back and OK buttons. -/
  | backConfirmation (fieldIdx : Nat) (prevAnswer : String)
  /-- field_back re-showing the form field with its prior answer and the
  four form buttons. -/
  | backFormPrompt (fieldIdx : Nat) (prevAnswer : String)
  /-- the "→ selected" message after a form selection. -/
  | formSelected (value : String)
  /-- query.message.delete(). -/
  | deleteQueryMsg
  /-- edit_message_reply_markup(..., reply_markup=None) on a stored message. -/
  | removeMarkup (msgId : Nat)
  /-- edit_reply_markup on the callback query's own message. -/
  | removeQueryMarkup
  /-- the "Распознано: ..." echo of a voice transcription. -/
  | transcriptionShown (text : String)
  /-- the transcription-failure notice. -/
  | transcriptionFailed
  /-- main.handle_callback's "Неизвестная команда." answer. -/
  | unknownCommand
  deriving Repr, DecidableEq

/-- The per-user practice slots of context.user_data. -/
structure PState where
  mode : Option String
  currentField : Option Nat
  practiceData : List (String × String)
  currentAnswer : Option String
  confirmationMessageId : Option Nat
  fieldPromptMessageId : Option Nat
  deriving Repr, DecidableEq

/-- One user's slots of the module-level field_message_parts and
field_timers dictionaries; none models an absent key.  A present timer
records the scheduled fire time of the call_later handle. -/
structure AccState where
  parts : Option (List String)
  timer : Option Nat
  deriving Repr, DecidableEq

/-- A persisted practice entry (entries table row, text columns). -/
structure Entry where
  content : String
  attitude : String
  form : String
  body : String
  response : String
  deriving Repr, DecidableEq

/-- The persistent store: entries plus a refusal counter. -/
structure Db where
  entries : List Entry
  refusals : Nat
  deriving Repr, DecidableEq

/-- The whole per-user world: session, accumulator, store, emitted
directives and the message-id counter. -/
structure World where
  ps : PState
  acc : AccState
  db : Db
  outs : List Directive
  nextMsgId : Nat
  deriving Repr, DecidableEq

/-- Dictionary read: Python dict.get(k) against practice_data. -/
def pdGet : List (String × String) → String → Option String
  | [], _ => none
  | (k', v) :: rest, k => if k' = k then some v else pdGet rest k

/-- Dictionary write: practice_data[k] = v (overwrites an existing key). -/
def pdSet : List (String × String) → String → String → List (String × String)
  | [], k, v => [(k, v)]
  | (k', v') :: rest, k, v =>
      if k' = k then (k, v) :: rest else (k', v') :: pdSet rest k v

/-- Python str.strip: drop leading and trailing whitespace.  (String.trim
is extensionally this function, but it recurses on byte positions in a
way the kernel cannot unfold, so the structural character-list version is
used throughout.) -/
def py_strip (s : String) : String :=
  ⟨((s.data.dropWhile Char.isWhitespace).reverse.dropWhile Char.isWhitespace).reverse⟩

/-- Python str.startswith, over the character lists of the strings. -/
def str_starts_with (s p : String) : Bool :=
  p.data.isPrefixOf s.data

/-- Python '\n'.join over a list of parts. -/
def join_parts : List String → String
  | [] => ""
  | [x] => x
  | x :: y :: xs => x ++ "\n" ++ join_parts (y :: xs)

/-- Append one outbound directive. -/
def emit (w : World) (d : Directive) : World :=
  { w with outs := w.outs ++ [d] }

/-- Send a message whose Telegram id the handler stores: emits the
directive and returns the fresh message id. -/
def sendMsg (w : World) (d : Directive) : World × Nat :=
  ({ w with outs := w.outs ++ [d], nextMsgId := w.nextMsgId + 1 }, w.nextMsgId)

/-- The 0.5 s debounce delay of practice.py, in tenths of a second. -/
def FIELD_DEBOUNCE_DELAY : Nat := 5

/-- practice.send_field_prompt(message, field, field_idx, context): sends the
field prompt; the form field (index 2) gets the four form buttons, any
field above 0 gets the back button, and when buttons are attached the
message id is stored in field_prompt_message_id. -/
def send_field_prompt (w : World) (fieldIdx : Nat) : World :=
  if fieldIdx = 2 then
    let r := sendMsg w (.showPrompt fieldIdx true (decide (0 < fieldIdx)))
    { r.1 with ps := { r.1.ps with fieldPromptMessageId := some r.2 } }
  else if 0 < fieldIdx then
    let r := sendMsg w (.showPrompt fieldIdx false true)
    { r.1 with ps := { r.1.ps with fieldPromptMessageId := some r.2 } }
  else
    (sendMsg w (.showPrompt fieldIdx false false)).1

/-- practice.send_field_confirmation: joins the accumulated parts with
newlines, stores the result in current_answer, strips buttons from the
stored prompt/confirmation messages, sends the confirmation message and
clears the accumulator.  A missing parts entry raises KeyError, which the
function swallows; an out-of-range field index raises when indexing
PRACTICE_FIELDS (after current_answer was already assigned) and is caught
by the outer except. -/
def send_field_confirmation (w : World) : World :=
  match w.acc.parts with
  | none => w
  | some parts =>
    let full_text := join_parts parts
    let w := { w with ps := { w.ps with currentAnswer := some full_text } }
    let idx := w.ps.currentField.getD 0
    if PRACTICE_FIELDS.length ≤ idx then w
    else
      let w :=
        match w.ps.fieldPromptMessageId with
        | some mid =>
            let w := emit w (.removeMarkup mid)
            { w with ps := { w.ps with fieldPromptMessageId := none } }
        | none => w
      let w :=
        match w.ps.confirmationMessageId with
        | some mid => emit w (.removeMarkup mid)
        | none => w
      let r := sendMsg w (.showConfirmation full_text)
      let w := { r.1 with ps := { r.1.ps with confirmationMessageId := some r.2 } }
      { w with acc := { parts := none, timer := none } }

/-- practice.handle_practice_input: during guided practice, trims the text,
guards the field index (clearing the mode when out of range), seeds the
buffer with a pending current_answer on first use, appends the chunk and
(re)starts the debounce timer.  Returns the handled flag. -/
def handle_practice_input (w : World) (text : String) (now : Nat) : World × Bool :=
  if w.ps.mode ≠ some "guided_practice" then (w, false)
  else
    let user_text := py_strip text
    let idx := w.ps.currentField.getD 0
    if PRACTICE_FIELDS.length ≤ idx then
      ({ w with ps := { w.ps with mode := none } }, true)
    else
      let parts0 : List String :=
        match w.acc.parts with
        | some p => p
        | none =>
          match w.ps.currentAnswer with
          | some a => if a = "" then [] else [a]
          | none => []
      ({ w with
          acc := { parts := some (parts0 ++ [user_text]),
                   timer := some (now + FIELD_DEBOUNCE_DELAY) } }, true)

/-- practice.handle_practice_voice: same as text input but the chunk is the
transcription result; a failed (None or empty) transcription only surfaces
a notice, a successful one is echoed and accumulated untrimmed. -/
def handle_practice_voice (w : World) (transcribed : Option String) (now : Nat) :
    World × Bool :=
  if w.ps.mode ≠ some "guided_practice" then (w, false)
  else
    let idx := w.ps.currentField.getD 0
    if PRACTICE_FIELDS.length ≤ idx then
      ({ w with ps := { w.ps with mode := none } }, true)
    else
      if transcribed.getD "" = "" then (emit w .transcriptionFailed, true)
      else
        let t := transcribed.getD ""
        let w := emit w (.transcriptionShown t)
        let parts0 : List String :=
          match w.acc.parts with
          | some p => p
          | none =>
            match w.ps.currentAnswer with
            | some a => if a = "" then [] else [a]
            | none => []
        ({ w with
            acc := { parts := some (parts0 ++ [t]),
                     timer := some (now + FIELD_DEBOUNCE_DELAY) } }, true)

/-- The form_map dictionary of the form_ branch, with its '' default. -/
def form_map (cb : String) : String :=
  if cb = "form_yes_accepting" then "Да-принимающее"
  else if cb = "form_no_accepting" then "Нет-принимающее"
  else if cb = "form_yes_rejecting" then "Да-отрицающее"
  else if cb = "form_no_rejecting" then "Нет-отрицающее"
  else ""

/-- database.create_entry: inserts one row with the given five text
columns; persistFails models the insert raising (the spec's simulated
persistence failure), in which case the transaction is rolled back and
nothing is stored. -/
def create_entry (db : Db) (content attitude form body response : String)
    (persistFails : Bool) : Option Db :=
  if persistFails then none
  else some { db with entries := db.entries ++ [⟨content, attitude, form, body, response⟩] }

/-- practice.complete_practice: builds the entry from practice_data (each
field defaulting to '' when absent), persists it, and only on success
clears the whole session, cancels the accumulator and confirms; if
create_entry raises, the except block sends the save-error notice and the
session is left untouched. -/
def complete_practice (w : World) (persistFails : Bool) : World :=
  let pd := w.ps.practiceData
  match create_entry w.db ((pdGet pd "content").getD "") ((pdGet pd "attitude").getD "")
      ((pdGet pd "form").getD "") ((pdGet pd "body").getD "")
      ((pdGet pd "response").getD "") persistFails with
  | none => emit w .saveError
  | some db' =>
    let w := { w with db := db' }
    let w := { w with ps :=
      { mode := none, currentField := none, practiceData := [],
        currentAnswer := none, confirmationMessageId := none,
        fieldPromptMessageId := none } }
    let w := { w with acc := { parts := none, timer := none } }
    emit w .saved

/-- practice.handle_practice_callback: dispatches the form_*, field_ok,
field_save and field_back callbacks during guided practice, exactly
following the source's guard order.  The form_ branch stores the selection,
advances the index and only then indexes PRACTICE_FIELDS, so past the last
field the IndexError lands in the generic except after the index was
already moved.  field_back sets current_field before indexing
PRACTICE_FIELDS likewise. -/
def handle_practice_callback (w : World) (cb : String) (persistFails : Bool) : World :=
  if w.ps.mode ≠ some "guided_practice" then w
  else if str_starts_with cb "form_" then
    let idx := w.ps.currentField.getD 0
    let selected := form_map cb
    if selected = "" then w
    else
      let w := { w with ps :=
        { w.ps with practiceData := pdSet w.ps.practiceData "form" selected,
                    currentAnswer := none } }
      let w := emit w .removeQueryMarkup
      let w := emit w (.formSelected selected)
      let next := idx + 1
      let w := { w with ps := { w.ps with currentField := some next } }
      if next < PRACTICE_FIELDS.length then send_field_prompt w next
      else emit w .genericError
  else if cb = "field_ok" then
    let idx := w.ps.currentField.getD 0
    if PRACTICE_FIELDS.length ≤ idx then w
    else
      let ca := (w.ps.currentAnswer.getD "")
      if ca = "" ∨ py_strip ca = "" then emit w .validationError
      else
        let w := { w with ps :=
          { w.ps with practiceData := pdSet w.ps.practiceData (fieldName idx) ca,
                      currentAnswer := none } }
        let w := emit w .deleteQueryMsg
        let w := { w with ps := { w.ps with confirmationMessageId := none } }
        let next := idx + 1
        if next < PRACTICE_FIELDS.length then
          let w := { w with ps := { w.ps with currentField := some next } }
          send_field_prompt w next
        else
          let w := { w with ps := { w.ps with currentField := some PRACTICE_FIELDS.length } }
          emit w .readyToSave
  else if cb = "field_save" then
    let w := emit w .deleteQueryMsg
    complete_practice w persistFails
  else if cb = "field_back" then
    let idx := w.ps.currentField.getD 0
    if idx = 0 then emit w .firstStepNotice
    else
      let w := { w with acc := { parts := none, timer := none } }
      let w := emit w .deleteQueryMsg
      let w := { w with ps := { w.ps with confirmationMessageId := none } }
      let w :=
        match w.ps.fieldPromptMessageId with
        | some mid =>
            let w := emit w (.removeMarkup mid)
            { w with ps := { w.ps with fieldPromptMessageId := none } }
        | none => w
      let prev := idx - 1
      let w := { w with ps := { w.ps with currentField := some prev } }
      if PRACTICE_FIELDS.length ≤ prev then emit w .genericError
      else
        let prev_answer := (pdGet w.ps.practiceData (fieldName prev)).getD ""
        let w := { w with ps := { w.ps with currentAnswer := some prev_answer } }
        if prev_answer = "" then
          let w := send_field_prompt w prev
          { w with ps := { w.ps with currentAnswer := none } }
        else if prev = 2 then
          let r := sendMsg w (.backFormPrompt prev prev_answer)
          { r.1 with ps := { r.1.ps with fieldPromptMessageId := some r.2 } }
        else
          let r := sendMsg w (.backConfirmation prev prev_answer)
          { r.1 with ps := { r.1.ps with confirmationMessageId := some r.2 } }
  else w

/-- Number of parameters of practice.send_field_prompt's definition. -/
def send_field_prompt_param_count : Nat := 4

/-- Number of arguments reminders.handle_reminder_response passes to
send_field_prompt at its call site (query.message, first_field, 0). -/
def reminder_prompt_call_arg_count : Nat := 3

/-- reminders.handle_reminder_response: reminder_yes_guided initializes the
guided session and then calls send_field_prompt; the call supplies three
arguments to a four-parameter function, so Python raises TypeError before
the prompt is sent and the except block surfaces the generic error.
reminder_no records a refusal. -/
def handle_reminder_response (w : World) (cb : String) : World :=
  if cb = "reminder_yes_guided" then
    let w := { w with ps :=
      { w.ps with mode := some "guided_practice", currentField := some 0,
                  practiceData := [], currentAnswer := none } }
    let w := emit w .deleteQueryMsg
    if reminder_prompt_call_arg_count = send_field_prompt_param_count then
      send_field_prompt w 0
    else
      emit w .genericError
  else if cb = "reminder_no" then
    let w := { w with db := { w.db with refusals := w.db.refusals + 1 } }
    emit w .deleteQueryMsg
  else w

/-- Destination chosen by main.handle_callback for a callback_data value. -/
inductive Route where
  | practice
  | reminder
  | unhandled
  deriving Repr, DecidableEq

/-- The prefix dispatch of main.handle_callback: only field_ and reminder_
prefixes are routed; everything else is answered "Неизвестная команда.". -/
def route_callback (cb : String) : Route :=
  if str_starts_with cb "field_" then .practice
  else if str_starts_with cb "reminder_" then .reminder
  else .unhandled

/-- main.handle_callback for an authenticated user. -/
def handle_callback (w : World) (cb : String) (persistFails : Bool) : World :=
  match route_callback cb with
  | .practice => handle_practice_callback w cb persistFails
  | .reminder => handle_reminder_response w cb
  | .unhandled => emit w .unknownCommand

/-! ### Event-loop drivers

The asyncio timeline around the debounce timer, made explicit: a pending
call_later handle fires once its scheduled time is reached unless a later
submission replaced it (the source cancels the old handle before storing a
new one, so replacement and cancellation coincide). -/

/-- Run the pending debounce flush if its scheduled time has been reached. -/
def flush_if_due (w : World) (now : Nat) : World :=
  match w.acc.timer with
  | some ft => if ft ≤ now then send_field_confirmation w else w
  | none => w

/-- Deliver one timed text submission: first fire any timer that became due
before it, then run handle_practice_input at the submission time. -/
def debounce_step (w : World) (sub : Nat × String) : World :=
  (handle_practice_input (flush_if_due w sub.1) sub.2 sub.1).1

/-- After the last submission the quiet period always elapses, so a
still-pending timer fires. -/
def final_flush (w : World) : World :=
  match w.acc.timer with
  | some _ => send_field_confirmation w
  | none => w

/-- Deliver a whole sequence of timed submissions and let the final quiet
period elapse. -/
def run_debounce (w : World) (subs : List (Nat × String)) : World :=
  final_flush (subs.foldl debounce_step w)

/-! ### Cancellation race

The three atomic steps of the cancellation race on one user's buffer:
the call_later handle firing (which only creates the flush task), the flush
task body running, and the cancellation fragment of the field_back branch
(cancel and delete the timer handle, delete the buffered parts). -/

/-- An atomic event-loop step relevant to the cancellation race. -/
inductive AccEvent where
  | timerFire
  | taskRun
  | cancelBack
  deriving Repr, DecidableEq

/-- World plus the created-but-not-yet-run flush task. -/
structure AccRace where
  w : World
  taskPending : Bool
  deriving Repr, DecidableEq

/-- Semantics of one race step.  A cancelled (deleted) handle never fires;
a fired handle has already created the task, which then runs
send_field_confirmation; the field_back fragment deletes the handle and the
parts whether or not the handle already fired. -/
def acc_race_step (s : AccRace) : AccEvent → AccRace
  | .timerFire =>
      if s.w.acc.timer.isSome then { s with taskPending := true } else s
  | .taskRun =>
      if s.taskPending then { w := send_field_confirmation s.w, taskPending := false }
      else s
  | .cancelBack =>
      { s with w := { s.w with acc := { parts := none, timer := none } } }

/-- Run a sequence of race steps. -/
def run_race (s : AccRace) (tr : List AccEvent) : AccRace :=
  tr.foldl acc_race_step s

/-- Whether a directive is the answer-ready confirmation. -/
def is_confirmation : Directive → Bool
  | .showConfirmation _ => true
  | _ => false

/-- How many answer-ready confirmations a directive list contains. -/
def confirmation_count (outs : List Directive) : Nat :=
  (outs.filter is_confirmation).length

/-! ### Practice events and reachability -/

/-- The externally triggered practice events of the claim list, applied
directly to the practice handlers. -/
inductive PracticeEvent where
  | textInput (text : String) (now : Nat)
  | voiceInput (transcribed : Option String) (now : Nat)
  | callback (cb : String) (persistFails : Bool)
  deriving Repr, DecidableEq

/-- Apply one practice event through the corresponding handler. -/
def apply_practice_event (w : World) : PracticeEvent → World
  | .textInput t now => (handle_practice_input w t now).1
  | .voiceInput r now => (handle_practice_voice w r now).1
  | .callback cb pf => handle_practice_callback w cb pf

/-- Worlds the deployed bot can put a user's session into after the guided
flow was started: the reminder_yes_guided callback routed by
main.handle_callback, followed by any sequence of routed callbacks, text
messages, voice messages and debounce flushes. -/
inductive Reachable : World → Prop where
  | start (w : World) (pf : Bool) :
      Reachable (handle_callback w "reminder_yes_guided" pf)
  | cbStep (w : World) (cb : String) (pf : Bool) :
      Reachable w → Reachable (handle_callback w cb pf)
  | textStep (w : World) (t : String) (now : Nat) :
      Reachable w → Reachable ((handle_practice_input w t now).1)
  | voiceStep (w : World) (r : Option String) (now : Nat) :
      Reachable w → Reachable ((handle_practice_voice w r now).1)
  | flushStep (w : World) :
      Reachable w → Reachable (send_field_confirmation w)

/-- The wizard's session invariant: in guided mode the field index exists,
stays within 0..5, and every field strictly below it carries a non-empty
collected answer. -/
def WizardInv (w : World) : Prop :=
  w.ps.mode = some "guided_practice" →
    ∃ i, w.ps.currentField = some i ∧ i ≤ PRACTICE_FIELDS.length ∧
      ∀ j, j < i → ∃ v, pdGet w.ps.practiceData (fieldName j) = some v ∧ v ≠ ""

/-- The events enumerated by the field-index bounds claim. -/
def claim_events : PracticeEvent → Prop := fun e =>
  match e with
  | .textInput _ _ => True
  | .voiceInput _ _ => True
  | .callback cb _ =>
      cb = "field_ok" ∨ cb = "field_back" ∨ cb = "field_save" ∨
      cb = "form_yes_accepting" ∨ cb = "form_no_accepting" ∨
      cb = "form_yes_rejecting" ∨ cb = "form_no_rejecting"

/-! ### Concrete scenario worlds -/

/-- A user with no session yet. -/
def idle_world : World :=
  ⟨⟨none, none, [], none, none, none⟩, ⟨none, none⟩, ⟨[], 0⟩, [], 1⟩

/-- A freshly started guided session at field 0 with nothing collected. -/
def start_session : World :=
  ⟨⟨some "guided_practice", some 0, [], none, none, none⟩, ⟨none, none⟩, ⟨[], 0⟩, [], 1⟩

/-- Answer the current field with one message, let the debounce elapse, and
press the OK button. -/
def confirm_with (w : World) (a : String) : World :=
  handle_practice_callback (send_field_confirmation (handle_practice_input w a 0).1)
    "field_ok" false

/-- Press the back button. -/
def go_back (w : World) : World :=
  handle_practice_callback w "field_back" false

/-- One full wizard step routed through main.handle_callback. -/
def demo_step (w : World) (a : String) : World :=
  handle_callback (send_field_confirmation (handle_practice_input w a 0).1)
    "field_ok" false

/-- The guided flow started from the reminder button. -/
def demo_start : World := handle_callback idle_world "reminder_yes_guided" false

/-- A complete wizard run, reaching the ready-to-save state. -/
def demo_full : World :=
  demo_step (demo_step (demo_step (demo_step (demo_step demo_start "A") "B") "C") "D") "E"

/-- Session at ReadyToSave handed to the committer with an empty
collected-answers map. -/
def wC2 : World :=
  ⟨⟨some "guided_practice", some 5, [], none, none, none⟩, ⟨none, none⟩, ⟨[], 0⟩, [], 1⟩

/-- Session at the form field with the first two fields collected. -/
def wC5 : World :=
  ⟨⟨some "guided_practice", some 2, [("content", "A"), ("attitude", "B")], none, none, none⟩,
   ⟨none, none⟩, ⟨[], 0⟩, [], 1⟩

/-- Session at field 1 with a pending answer while fields collected on an
earlier pass (including the next field) are still present. -/
def wC6 : World :=
  ⟨⟨some "guided_practice", some 1, [("content", "A"), ("attitude", "B"), ("form", "C")],
    some "B2", none, none⟩, ⟨none, none⟩, ⟨[], 0⟩, [], 1⟩

/-- Complete session at ReadyToSave with no pending answer. -/
def wC7 : World :=
  ⟨⟨some "guided_practice", some 5,
    [("content", "A"), ("attitude", "B"), ("form", "C"), ("body", "D"), ("response", "E")],
    none, none, none⟩, ⟨none, none⟩, ⟨[], 0⟩, [], 1⟩

/-- Session at field 1 with no pending answer. -/
def wC7b : World :=
  ⟨⟨some "guided_practice", some 1, [("content", "A")], none, none, none⟩,
   ⟨none, none⟩, ⟨[], 0⟩, [], 1⟩

/-- Session at field 0 with a live accumulator buffer and pending timer. -/
def wC8 : World :=
  ⟨⟨some "guided_practice", some 0, [], none, none, none⟩,
   ⟨some ["Hello", "World"], some 7⟩, ⟨[], 0⟩, [], 1⟩

/-- Complete session at ReadyToSave (for the form-selection index escape). -/
def wC9 : World :=
  ⟨⟨some "guided_practice", some 5,
    [("content", "A"), ("attitude", "B"), ("form", "C"), ("body", "D"), ("response", "E")],
    none, none, none⟩, ⟨none, none⟩, ⟨[], 0⟩, [], 1⟩

/-- Complete session at ReadyToSave with the collected answers a save
would persist. -/
def wC1 : World :=
  ⟨⟨some "guided_practice", some 5,
    [("content", "A"), ("attitude", "B"), ("form", "C"), ("body", "D"), ("response", "E")],
    none, none, none⟩, ⟨none, none⟩, ⟨[], 0⟩, [], 1⟩

/-! ### Basic lemmas -/

@[simp] theorem PRACTICE_FIELDS_length : PRACTICE_FIELDS.length = 5 := rfl

@[simp] theorem fieldName_zero : fieldName 0 = "content" := rfl

@[simp] theorem fieldName_one : fieldName 1 = "attitude" := rfl

@[simp] theorem fieldName_two : fieldName 2 = "form" := rfl

@[simp] theorem fieldName_three : fieldName 3 = "body" := rfl

@[simp] theorem fieldName_four : fieldName 4 = "response" := rfl

@[simp] theorem emit_ps (w : World) (d : Directive) : (emit w d).ps = w.ps := rfl

@[simp] theorem emit_acc (w : World) (d : Directive) : (emit w d).acc = w.acc := rfl

@[simp] theorem emit_db (w : World) (d : Directive) : (emit w d).db = w.db := rfl

@[simp] theorem emit_outs (w : World) (d : Directive) :
    (emit w d).outs = w.outs ++ [d] := rfl

@[simp] theorem join_parts_singleton (x : String) : join_parts [x] = x := rfl

@[simp] theorem pdGet_nil (k : String) : pdGet [] k = none := rfl

theorem pdGet_pdSet_self (m : List (String × String)) (k v : String) :
    pdGet (pdSet m k v) k = some v := by
  induction m with
  | nil => simp [pdGet, pdSet]
  | cons p rest ih =>
    by_cases h : p.1 = k
    · simp [pdGet, pdSet, h]
    · simpa [pdGet, pdSet, h] using ih

theorem pdGet_pdSet_ne (m : List (String × String)) (k k' v : String) (h : k ≠ k') :
    pdGet (pdSet m k v) k' = pdGet m k' := by
  induction m with
  | nil => simp [pdGet, pdSet, h]
  | cons p rest ih =>
    by_cases hp : p.1 = k
    · simp [pdGet, pdSet, hp, h]
    · simp [pdGet, pdSet, hp]
      split <;> simp_all [pdGet]

theorem fieldName_ne_of_lt (j i : Nat) (hj : j < i) (hi : i < PRACTICE_FIELDS.length) :
    fieldName j ≠ fieldName i := by
  have hi5 : i < 5 := by simpa using hi
  interval_cases i <;> interval_cases j <;> decide

/-! Concrete dispatch facts for the callback strings in play. -/

@[simp] theorem sw_ok_form : str_starts_with "field_ok" "form_" = false := by decide

@[simp] theorem sw_save_form : str_starts_with "field_save" "form_" = false := by decide

@[simp] theorem sw_back_form : str_starts_with "field_back" "form_" = false := by decide

@[simp] theorem sw_ok_field : str_starts_with "field_ok" "field_" = true := by decide

@[simp] theorem sw_save_field : str_starts_with "field_save" "field_" = true := by decide

@[simp] theorem sw_back_field : str_starts_with "field_back" "field_" = true := by decide

@[simp] theorem sw_form_yes_field : str_starts_with "form_yes_accepting" "field_" = false := by
  decide

@[simp] theorem sw_form_yes_reminder :
    str_starts_with "form_yes_accepting" "reminder_" = false := by decide

@[simp] theorem sw_form_yes_form : str_starts_with "form_yes_accepting" "form_" = true := by
  decide

@[simp] theorem sw_form_no_form : str_starts_with "form_no_accepting" "form_" = true := by
  decide

@[simp] theorem sw_form_yesr_form : str_starts_with "form_yes_rejecting" "form_" = true := by
  decide

@[simp] theorem sw_form_nor_form : str_starts_with "form_no_rejecting" "form_" = true := by
  decide

@[simp] theorem sw_yes_guided_field :
    str_starts_with "reminder_yes_guided" "field_" = false := by decide

@[simp] theorem sw_yes_guided_reminder :
    str_starts_with "reminder_yes_guided" "reminder_" = true := by decide

theorem data_field_underscore : "field_".data = ['f', 'i', 'e', 'l', 'd', '_'] := rfl

theorem data_form_underscore : "form_".data = ['f', 'o', 'r', 'm', '_'] := rfl

/-- A callback routed as a field_ callback can never hit the form_ branch:
the two prefixes disagree at their second character. -/
theorem not_form_of_field (cb : String) (h : str_starts_with cb "field_" = true) :
    str_starts_with cb "form_" = false := by
  unfold str_starts_with at h ⊢
  rw [data_field_underscore] at h
  rw [data_form_underscore]
  cases hd : cb.data with
  | nil => rw [hd] at h; simp [List.isPrefixOf] at h
  | cons c t =>
    rw [hd] at h
    cases t with
    | nil => simp [List.isPrefixOf] at h
    | cons c2 t2 =>
      simp [List.isPrefixOf] at h ⊢
      obtain ⟨-, h2, -⟩ := h
      subst h2
      intro _ hoi
      exact absurd hoi (by decide)

/-! ### Projection lemmas for the handlers -/

@[simp] theorem send_field_prompt_mode (w : World) (k : Nat) :
    (send_field_prompt w k).ps.mode = w.ps.mode := by
  unfold send_field_prompt sendMsg
  split
  · rfl
  · split <;> rfl

@[simp] theorem send_field_prompt_currentField (w : World) (k : Nat) :
    (send_field_prompt w k).ps.currentField = w.ps.currentField := by
  unfold send_field_prompt sendMsg
  split
  · rfl
  · split <;> rfl

@[simp] theorem send_field_prompt_practiceData (w : World) (k : Nat) :
    (send_field_prompt w k).ps.practiceData = w.ps.practiceData := by
  unfold send_field_prompt sendMsg
  split
  · rfl
  · split <;> rfl

@[simp] theorem send_field_prompt_currentAnswer (w : World) (k : Nat) :
    (send_field_prompt w k).ps.currentAnswer = w.ps.currentAnswer := by
  unfold send_field_prompt sendMsg
  split
  · rfl
  · split <;> rfl

@[simp] theorem send_field_prompt_acc (w : World) (k : Nat) :
    (send_field_prompt w k).acc = w.acc := by
  unfold send_field_prompt sendMsg
  split
  · rfl
  · split <;> rfl

@[simp] theorem send_field_prompt_db (w : World) (k : Nat) :
    (send_field_prompt w k).db = w.db := by
  unfold send_field_prompt sendMsg
  split
  · rfl
  · split <;> rfl

@[simp] theorem send_field_confirmation_mode (w : World) :
    (send_field_confirmation w).ps.mode = w.ps.mode := by
  unfold send_field_confirmation sendMsg emit
  split
  · rfl
  · dsimp only
    split
    · rfl
    · split <;> split <;> rfl

@[simp] theorem send_field_confirmation_currentField (w : World) :
    (send_field_confirmation w).ps.currentField = w.ps.currentField := by
  unfold send_field_confirmation sendMsg emit
  split
  · rfl
  · dsimp only
    split
    · rfl
    · split <;> split <;> rfl

@[simp] theorem send_field_confirmation_practiceData (w : World) :
    (send_field_confirmation w).ps.practiceData = w.ps.practiceData := by
  unfold send_field_confirmation sendMsg emit
  split
  · rfl
  · dsimp only
    split
    · rfl
    · split <;> split <;> rfl

@[simp] theorem send_field_confirmation_db (w : World) :
    (send_field_confirmation w).db = w.db := by
  unfold send_field_confirmation sendMsg emit
  split
  · rfl
  · dsimp only
    split
    · rfl
    · split <;> split <;> rfl

/-- Closed-form value of a debounce flush on a live buffer with no stored
prompt/confirmation message ids. -/
theorem send_field_confirmation_eval (w : World) (l : List String) (i : Nat)
    (hp : w.acc.parts = some l)
    (hcf : w.ps.currentField = some i) (hi : i < PRACTICE_FIELDS.length)
    (hfp : w.ps.fieldPromptMessageId = none)
    (hcm : w.ps.confirmationMessageId = none) :
    send_field_confirmation w =
      { w with
          ps := { w.ps with currentAnswer := some (join_parts l),
                            confirmationMessageId := some w.nextMsgId },
          outs := w.outs ++ [.showConfirmation (join_parts l)],
          nextMsgId := w.nextMsgId + 1,
          acc := { parts := none, timer := none } } := by
  unfold send_field_confirmation
  rw [hp]
  have hii : ¬ (PRACTICE_FIELDS.length ≤ i) := not_le.mpr hi
  simp only [hcf, Option.getD_some, hii, if_false, hfp, hcm, sendMsg]

/-! ### Invariant preservation -/

theorem wizardInv_congr {w w' : World}
    (hm : w'.ps.mode = w.ps.mode) (hcf : w'.ps.currentField = w.ps.currentField)
    (hpd : w'.ps.practiceData = w.ps.practiceData) (h : WizardInv w) : WizardInv w' := by
  intro hmode
  rw [hm] at hmode
  obtain ⟨i, h1, h2, h3⟩ := h hmode
  refine ⟨i, by rw [hcf, h1], h2, fun j hj => by rw [hpd]; exact h3 j hj⟩

theorem wizardInv_input (w : World) (t : String) (now : Nat) (h : WizardInv w) :
    WizardInv ((handle_practice_input w t now).1) := by
  unfold handle_practice_input
  split
  · exact h
  · dsimp only
    split
    · intro hm; simp at hm
    · exact h

theorem wizardInv_voice (w : World) (r : Option String) (now : Nat) (h : WizardInv w) :
    WizardInv ((handle_practice_voice w r now).1) := by
  unfold handle_practice_voice
  split
  · exact h
  · dsimp only
    split
    · intro hm; simp at hm
    · split
      · exact h
      · exact h

theorem wizardInv_flush (w : World) (h : WizardInv w) :
    WizardInv (send_field_confirmation w) := by
  exact wizardInv_congr (send_field_confirmation_mode w)
    (send_field_confirmation_currentField w)
    (send_field_confirmation_practiceData w) h

theorem wizardInv_reminder (w : World) (cb : String) (h : WizardInv w) :
    WizardInv (handle_reminder_response w cb) := by
  unfold handle_reminder_response
  split
  · dsimp only
    split
    · intro _
      exact ⟨0, rfl, by simp, fun j hj => absurd hj (Nat.not_lt_zero j)⟩
    · intro _
      exact ⟨0, rfl, by simp, fun j hj => absurd hj (Nat.not_lt_zero j)⟩
  · split
    · exact h
    · exact h

theorem wizardInv_field_ok (w : World) (pf : Bool) (h : WizardInv w) :
    WizardInv (handle_practice_callback w "field_ok" pf) := by
  unfold handle_practice_callback
  by_cases hm : w.ps.mode = some "guided_practice"
  case neg =>
    rw [if_pos hm]
    exact h
  case pos =>
  rw [if_neg (not_not_intro hm)]
  rw [if_neg (show ¬ (str_starts_with "field_ok" "form_" = true) from by decide)]
  rw [if_pos rfl]
  obtain ⟨i, hcf, hi, hall⟩ := h hm
  rw [hcf]
  dsimp only [Option.getD_some]
  by_cases hlen : PRACTICE_FIELDS.length ≤ i
  · rw [if_pos hlen]
    exact h
  · rw [if_neg hlen]
    have hi5 : i < PRACTICE_FIELDS.length := lt_of_not_le hlen
    by_cases hblank :
        w.ps.currentAnswer.getD "" = "" ∨ py_strip (w.ps.currentAnswer.getD "") = ""
    · rw [if_pos hblank]
      exact wizardInv_congr rfl rfl rfl h
    · rw [if_neg hblank]
      have hane : w.ps.currentAnswer.getD "" ≠ "" := fun hh => hblank (Or.inl hh)
      have hnew : ∀ j, j < i + 1 →
          ∃ v, pdGet (pdSet w.ps.practiceData (fieldName i) (w.ps.currentAnswer.getD ""))
              (fieldName j) = some v ∧ v ≠ "" := by
        intro j hj
        by_cases hji : j < i
        · obtain ⟨v, hv, hvne⟩ := hall j hji
          refine ⟨v, ?_, hvne⟩
          rw [pdGet_pdSet_ne _ _ _ _ (fieldName_ne_of_lt j i hji hi5).symm]
          exact hv
        · have hji' : j = i := by omega
          subst hji'
          exact ⟨_, pdGet_pdSet_self _ _ _, hane⟩
      by_cases hlt : i + 1 < PRACTICE_FIELDS.length
      · rw [if_pos hlt]
        intro _
        refine ⟨i + 1, by simp, by omega, fun j hj => by simpa using hnew j hj⟩
      · rw [if_neg hlt]
        intro _
        have hi4 : i + 1 = PRACTICE_FIELDS.length := by omega
        refine ⟨PRACTICE_FIELDS.length, by simp, le_refl _, fun j hj => ?_⟩
        rw [← hi4] at hj
        simpa using hnew j hj

theorem wizardInv_field_save (w : World) (pf : Bool) (h : WizardInv w) :
    WizardInv (handle_practice_callback w "field_save" pf) := by
  unfold handle_practice_callback
  by_cases hm : w.ps.mode = some "guided_practice"
  case neg =>
    rw [if_pos hm]
    exact h
  case pos =>
  rw [if_neg (not_not_intro hm)]
  rw [if_neg (show ¬ (str_starts_with "field_save" "form_" = true) from by decide)]
  rw [if_neg (show ¬ (("field_save" : String) = "field_ok") from by decide)]
  rw [if_pos rfl]
  unfold complete_practice create_entry
  cases pf with
  | true =>
    dsimp only
    exact h
  | false =>
    dsimp only
    intro hmode
    simp at hmode

/-- Projections of a successful field_back application. -/
theorem field_back_proj (w : World) (pf : Bool) (i : Nat)
    (hm : w.ps.mode = some "guided_practice")
    (hcf : w.ps.currentField = some i) (hz : ¬ (i = 0)) :
    (handle_practice_callback w "field_back" pf).ps.mode = w.ps.mode ∧
    (handle_practice_callback w "field_back" pf).ps.currentField = some (i - 1) ∧
    (handle_practice_callback w "field_back" pf).ps.practiceData = w.ps.practiceData := by
  unfold handle_practice_callback
  rw [if_neg (not_not_intro hm)]
  rw [if_neg (show ¬ (str_starts_with "field_back" "form_" = true) from by decide)]
  rw [if_neg (show ¬ (("field_back" : String) = "field_ok") from by decide)]
  rw [if_neg (show ¬ (("field_back" : String) = "field_save") from by decide)]
  rw [if_pos rfl, hcf]
  dsimp only [Option.getD_some]
  rw [if_neg hz]
  dsimp only [emit]
  cases hfp : w.ps.fieldPromptMessageId with
  | some mid =>
    by_cases hple : PRACTICE_FIELDS.length ≤ i - 1
    · rw [if_pos hple]
      exact ⟨rfl, rfl, rfl⟩
    · rw [if_neg hple]
      by_cases hpa : (pdGet w.ps.practiceData (fieldName (i - 1))).getD "" = ""
      · rw [if_pos hpa]
        refine ⟨?_, ?_, ?_⟩ <;> simp
      · rw [if_neg hpa]
        by_cases h2 : i - 1 = 2
        · rw [if_pos h2]
          exact ⟨rfl, rfl, rfl⟩
        · rw [if_neg h2]
          exact ⟨rfl, rfl, rfl⟩
  | none =>
    by_cases hple : PRACTICE_FIELDS.length ≤ i - 1
    · rw [if_pos hple]
      exact ⟨rfl, rfl, rfl⟩
    · rw [if_neg hple]
      by_cases hpa : (pdGet w.ps.practiceData (fieldName (i - 1))).getD "" = ""
      · rw [if_pos hpa]
        refine ⟨?_, ?_, ?_⟩ <;> simp
      · rw [if_neg hpa]
        by_cases h2 : i - 1 = 2
        · rw [if_pos h2]
          exact ⟨rfl, rfl, rfl⟩
        · rw [if_neg h2]
          exact ⟨rfl, rfl, rfl⟩

theorem wizardInv_field_back (w : World) (pf : Bool) (h : WizardInv w) :
    WizardInv (handle_practice_callback w "field_back" pf) := by
  by_cases hm : w.ps.mode = some "guided_practice"
  case neg =>
    unfold handle_practice_callback
    rw [if_pos hm]
    exact h
  case pos =>
  obtain ⟨i, hcf, hi, hall⟩ := h hm
  by_cases hz : i = 0
  · subst hz
    unfold handle_practice_callback
    rw [if_neg (not_not_intro hm)]
    rw [if_neg (show ¬ (str_starts_with "field_back" "form_" = true) from by decide)]
    rw [if_neg (show ¬ (("field_back" : String) = "field_ok") from by decide)]
    rw [if_neg (show ¬ (("field_back" : String) = "field_save") from by decide)]
    rw [if_pos rfl, hcf]
    dsimp only [Option.getD_some]
    rw [if_pos rfl]
    exact h
  · obtain ⟨hm', hcf', hpd'⟩ := field_back_proj w pf i hm hcf hz
    intro _
    refine ⟨i - 1, hcf', by omega, fun j hj => ?_⟩
    rw [hpd']
    exact hall j (by omega)

theorem hpc_other (w : World) (cb : String) (pf : Bool)
    (hform : str_starts_with cb "form_" = false)
    (h1 : cb ≠ "field_ok") (h2 : cb ≠ "field_save") (h3 : cb ≠ "field_back") :
    handle_practice_callback w cb pf = w := by
  unfold handle_practice_callback
  by_cases hm : w.ps.mode = some "guided_practice"
  · rw [if_neg (not_not_intro hm), if_neg (by simp [hform]), if_neg h1, if_neg h2,
      if_neg h3]
  · rw [if_pos hm]

theorem route_practice_field (cb : String) (h : route_callback cb = .practice) :
    str_starts_with cb "field_" = true := by
  unfold route_callback at h
  by_cases hf : str_starts_with cb "field_" = true
  · exact hf
  · rw [if_neg hf] at h
    by_cases hr : str_starts_with cb "reminder_" = true
    · rw [if_pos hr] at h
      exact absurd h (by decide)
    · rw [if_neg hr] at h
      exact absurd h (by decide)

theorem wizardInv_start (w : World) (pf : Bool) :
    WizardInv (handle_callback w "reminder_yes_guided" pf) := by
  unfold handle_callback route_callback
  rw [if_neg (show ¬ (str_starts_with "reminder_yes_guided" "field_" = true) from by decide)]
  rw [if_pos (show str_starts_with "reminder_yes_guided" "reminder_" = true from by decide)]
  dsimp only
  unfold handle_reminder_response
  rw [if_pos rfl]
  rw [if_neg (show ¬ (reminder_prompt_call_arg_count = send_field_prompt_param_count)
    from by decide)]
  intro _
  exact ⟨0, rfl, by simp, fun j hj => absurd hj (Nat.not_lt_zero j)⟩

/-- Every reachable world satisfies the wizard invariant: in guided mode
the index is in bounds and every field strictly below it has a non-empty
collected answer. -/
theorem reachable_inv (w : World) (h : Reachable w) : WizardInv w := by
  induction h with
  | start w pf => exact wizardInv_start w pf
  | cbStep w cb pf _ ih =>
    unfold handle_callback
    cases hroute : route_callback cb with
    | practice =>
      have hfield := route_practice_field cb hroute
      have hform := not_form_of_field cb hfield
      by_cases h1 : cb = "field_ok"
      · subst h1; exact wizardInv_field_ok w pf ih
      · by_cases h2 : cb = "field_save"
        · subst h2; exact wizardInv_field_save w pf ih
        · by_cases h3 : cb = "field_back"
          · subst h3; exact wizardInv_field_back w pf ih
          · rw [hpc_other w cb pf hform h1 h2 h3]
            exact ih
    | reminder => exact wizardInv_reminder w cb ih
    | unhandled => exact ih
  | textStep w t now _ ih => exact wizardInv_input w t now ih
  | voiceStep w r now _ ih => exact wizardInv_voice w r now ih
  | flushStep w _ ih => exact wizardInv_flush w ih

/-! ### Claim theorems -/

/-- C10: handling a reminder_yes_guided event always puts the session into
guided-practice mode at field index 0 with empty collected answers and no
pending answer, but because the handler passes three arguments to the
four-parameter send_field_prompt, Python raises TypeError and the generic
error notice is emitted instead of the first-field prompt. -/
theorem session_start_prompt_type_error (w : World) :
    (handle_reminder_response w "reminder_yes_guided").ps.mode = some "guided_practice" ∧
    (handle_reminder_response w "reminder_yes_guided").ps.currentField = some 0 ∧
    (handle_reminder_response w "reminder_yes_guided").ps.practiceData = [] ∧
    (handle_reminder_response w "reminder_yes_guided").ps.currentAnswer = none ∧
    reminder_prompt_call_arg_count ≠ send_field_prompt_param_count ∧
    (handle_reminder_response w "reminder_yes_guided").outs
      = w.outs ++ [Directive.deleteQueryMsg, Directive.genericError] := by
  unfold handle_reminder_response
  rw [if_pos rfl]
  rw [if_neg (show ¬ (reminder_prompt_call_arg_count = send_field_prompt_param_count)
    from by decide)]
  refine ⟨rfl, rfl, rfl, rfl, by decide, ?_⟩
  simp [emit]

/-- C5: the four form_* quick-choice callbacks are never routed to the
practice handler by main.handle_callback, so pressing the canned choice at
the form field only answers "Неизвестная команда." and changes nothing in
the session, even though handle_practice_callback itself would store the
literal choice and advance the wizard if it were invoked. -/
theorem form_selection_unrouted :
    route_callback "form_yes_accepting" = Route.unhandled ∧
    (handle_callback wC5 "form_yes_accepting" false).ps = wC5.ps ∧
    (handle_callback wC5 "form_yes_accepting" false).db = wC5.db ∧
    (handle_callback wC5 "form_yes_accepting" false).outs = [Directive.unknownCommand] ∧
    pdGet (handle_callback wC5 "form_yes_accepting" false).ps.practiceData "form" = none ∧
    (handle_practice_callback wC5 "form_yes_accepting" false).ps.currentField = some 3 ∧
    pdGet (handle_practice_callback wC5 "form_yes_accepting" false).ps.practiceData "form"
      = some "Да-принимающее" := by
  refine ⟨by decide, rfl, rfl, rfl, by decide, by decide, by decide⟩

/-- C7 counterexample: a confirm with no pending answer on a session at
field index 5 (ReadyToSave) is silently ignored: the state is left exactly
as it was, but no directive at all is emitted, in particular no
validation-error directive, contradicting the claim's "for every session
state ... emits a validation-error directive". -/
theorem confirm_empty_cex :
    wC7.ps.currentAnswer = none ∧
    handle_practice_callback wC7 "field_ok" false = wC7 ∧
    (handle_practice_callback wC7 "field_ok" false).outs = [] ∧
    Directive.validationError ∉ (handle_practice_callback wC7 "field_ok" false).outs := by
  refine ⟨rfl, by decide, by decide, by decide⟩

/-- C7 as amended: a confirm whose pending answer is absent, empty or
whitespace-only leaves the session, accumulator and store unchanged;
when the current field index is within range the validation-error
directive is emitted, while at index ≥ 5 the confirm is silently ignored
with no directive. -/
theorem confirm_empty_rejection (w : World) (i : Nat)
    (hm : w.ps.mode = some "guided_practice")
    (hcf : w.ps.currentField = some i)
    (hblank : py_strip (w.ps.currentAnswer.getD "") = "") :
    (handle_practice_callback w "field_ok" false).ps = w.ps ∧
    (handle_practice_callback w "field_ok" false).acc = w.acc ∧
    (handle_practice_callback w "field_ok" false).db = w.db ∧
    (i < PRACTICE_FIELDS.length →
      (handle_practice_callback w "field_ok" false).outs
        = w.outs ++ [Directive.validationError]) ∧
    (PRACTICE_FIELDS.length ≤ i →
      (handle_practice_callback w "field_ok" false).outs = w.outs) := by
  unfold handle_practice_callback
  rw [if_neg (not_not_intro hm)]
  rw [if_neg (show ¬ (str_starts_with "field_ok" "form_" = true) from by decide)]
  rw [if_pos rfl, hcf]
  dsimp only [Option.getD_some]
  by_cases hlen : PRACTICE_FIELDS.length ≤ i
  · rw [if_pos hlen]
    exact ⟨rfl, rfl, rfl, fun hlt => absurd hlt (not_lt.mpr hlen), fun _ => rfl⟩
  · rw [if_neg hlen]
    rw [if_pos (Or.inr hblank)]
    exact ⟨rfl, rfl, rfl, fun _ => rfl, fun hge => absurd hge hlen⟩

/-- Witness for C7's amended theorem at a concrete in-range session. -/
theorem confirm_empty_rejection_witness :
    wC7b.ps.mode = some "guided_practice" ∧
    wC7b.ps.currentField = some 1 ∧
    py_strip (wC7b.ps.currentAnswer.getD "") = "" ∧
    ((handle_practice_callback wC7b "field_ok" false).ps = wC7b.ps ∧
     (handle_practice_callback wC7b "field_ok" false).acc = wC7b.acc ∧
     (handle_practice_callback wC7b "field_ok" false).db = wC7b.db ∧
     (1 < PRACTICE_FIELDS.length →
       (handle_practice_callback wC7b "field_ok" false).outs
         = wC7b.outs ++ [Directive.validationError]) ∧
     (PRACTICE_FIELDS.length ≤ 1 →
       (handle_practice_callback wC7b "field_ok" false).outs = wC7b.outs)) :=
  ⟨rfl, rfl, by decide, confirm_empty_rejection wC7b 1 rfl rfl (by decide)⟩

/-- C6 counterexample: at field 1 with pending answer "B2" and an answer
"C" already collected for the next field (form) from an earlier pass,
confirming advances to field 2 but emits the bare form prompt and clears
the pending answer instead of a confirmation-style directive carrying the
old answer "C". -/
theorem confirm_preseed_cex :
    pdGet wC6.ps.practiceData "form" = some "C" ∧
    (handle_practice_callback wC6 "field_ok" false).ps.currentField = some 2 ∧
    (handle_practice_callback wC6 "field_ok" false).ps.currentAnswer = none ∧
    (handle_practice_callback wC6 "field_ok" false).outs
      = [Directive.deleteQueryMsg, Directive.showPrompt 2 true true] := by
  refine ⟨by decide, by decide, by decide, by decide⟩

/-- C6 as amended: a confirm that advances the wizard to a new in-range
field always clears the pending answer and emits the bare field prompt for
the new field, regardless of whether the collected-answers map already
holds an answer for it from an earlier pass; previously collected answers
are re-exposed only by goBack. -/
theorem confirm_bare_prompt (w : World) (i : Nat) (a : String)
    (hm : w.ps.mode = some "guided_practice")
    (hcf : w.ps.currentField = some i)
    (hca : w.ps.currentAnswer = some a)
    (htrim : py_strip a = a) (hne : a ≠ "")
    (hlt : i + 1 < PRACTICE_FIELDS.length) :
    (handle_practice_callback w "field_ok" false).ps.currentAnswer = none ∧
    (handle_practice_callback w "field_ok" false).ps.currentField = some (i + 1) ∧
    (handle_practice_callback w "field_ok" false).outs
      = w.outs ++ [Directive.deleteQueryMsg,
          Directive.showPrompt (i + 1) (decide (i + 1 = 2)) true] := by
  unfold handle_practice_callback
  rw [if_neg (not_not_intro hm)]
  rw [if_neg (show ¬ (str_starts_with "field_ok" "form_" = true) from by decide)]
  rw [if_pos rfl, hcf]
  dsimp only [Option.getD_some]
  rw [if_neg (show ¬ (PRACTICE_FIELDS.length ≤ i) from by omega)]
  rw [hca]
  dsimp only [Option.getD_some]
  rw [if_neg (show ¬ (a = "" ∨ py_strip a = "") from by simp [htrim, hne])]
  rw [if_pos hlt]
  unfold send_field_prompt
  by_cases h2 : i + 1 = 2
  · rw [if_pos h2]
    refine ⟨by simp [sendMsg], by simp [sendMsg], ?_⟩
    have hd : decide (i + 1 = 2) = true := decide_eq_true h2
    simp [sendMsg, emit, hd, h2]
  · rw [if_neg h2, if_pos (show 0 < i + 1 from by omega)]
    have hd : decide (i + 1 = 2) = false := decide_eq_false h2
    refine ⟨by simp [sendMsg], by simp [sendMsg], ?_⟩
    simp [sendMsg, emit, hd]
    omega

/-- Witness for C6's amended theorem: confirming field 1 with pending
answer "B2" advances to the form field with a bare prompt. -/
theorem confirm_bare_prompt_witness :
    wC6.ps.mode = some "guided_practice" ∧
    wC6.ps.currentField = some 1 ∧
    wC6.ps.currentAnswer = some "B2" ∧
    ((handle_practice_callback wC6 "field_ok" false).ps.currentAnswer = none ∧
     (handle_practice_callback wC6 "field_ok" false).ps.currentField = some (1 + 1) ∧
     (handle_practice_callback wC6 "field_ok" false).outs
       = wC6.outs ++ [Directive.deleteQueryMsg,
           Directive.showPrompt (1 + 1) (decide (1 + 1 = 2)) true]) :=
  ⟨rfl, rfl, rfl,
    confirm_bare_prompt wC6 1 "B2" rfl rfl rfl (by decide) (by decide) (by decide)⟩

/-- C1: for a guided session in the ReadyToSave state whose collected
answers hold the five fields, field_save either persists exactly one entry
built from those answers and fully resets the session (mode, field index,
collected answers, pending answer, stored message ids, accumulator buffer
and timer all cleared) and confirms, or, when persistence raises, persists
nothing and leaves session and accumulator exactly as they were, emitting
only the save-error notice so the save can be retried. -/
theorem commit_atomicity (w : World) (c a f b r : String)
    (hm : w.ps.mode = some "guided_practice")
    (_hcf : w.ps.currentField = some PRACTICE_FIELDS.length)
    (hc : pdGet w.ps.practiceData "content" = some c)
    (ha : pdGet w.ps.practiceData "attitude" = some a)
    (hf : pdGet w.ps.practiceData "form" = some f)
    (hb : pdGet w.ps.practiceData "body" = some b)
    (hr : pdGet w.ps.practiceData "response" = some r) :
    ((handle_practice_callback w "field_save" false).db.entries
        = w.db.entries ++ [⟨c, a, f, b, r⟩] ∧
     (handle_practice_callback w "field_save" false).ps.mode = none ∧
     (handle_practice_callback w "field_save" false).ps.currentField = none ∧
     (handle_practice_callback w "field_save" false).ps.practiceData = [] ∧
     (handle_practice_callback w "field_save" false).ps.currentAnswer = none ∧
     (handle_practice_callback w "field_save" false).ps.confirmationMessageId = none ∧
     (handle_practice_callback w "field_save" false).ps.fieldPromptMessageId = none ∧
     (handle_practice_callback w "field_save" false).acc.parts = none ∧
     (handle_practice_callback w "field_save" false).acc.timer = none ∧
     (handle_practice_callback w "field_save" false).outs
        = w.outs ++ [Directive.deleteQueryMsg, Directive.saved]) ∧
    ((handle_practice_callback w "field_save" true).db = w.db ∧
     (handle_practice_callback w "field_save" true).ps = w.ps ∧
     (handle_practice_callback w "field_save" true).acc = w.acc ∧
     (handle_practice_callback w "field_save" true).outs
        = w.outs ++ [Directive.deleteQueryMsg, Directive.saveError]) := by
  have hdispatch : ∀ pf : Bool, handle_practice_callback w "field_save" pf
      = complete_practice (emit w .deleteQueryMsg) pf := by
    intro pf
    unfold handle_practice_callback
    rw [if_neg (not_not_intro hm)]
    rw [if_neg (show ¬ (str_starts_with "field_save" "form_" = true) from by decide)]
    rw [if_neg (show ¬ (("field_save" : String) = "field_ok") from by decide)]
    rw [if_pos rfl]
  rw [hdispatch false, hdispatch true]
  unfold complete_practice create_entry
  dsimp only [emit]
  rw [hc, ha, hf, hb, hr]
  dsimp only [Option.getD_some]
  constructor
  · refine ⟨?_, rfl, rfl, rfl, rfl, rfl, rfl, rfl, rfl, by simp⟩
    simp
  · exact ⟨rfl, rfl, rfl, by simp⟩

/-- Witness for C1 at a concrete complete session. -/
theorem commit_atomicity_witness :
    wC1.ps.mode = some "guided_practice" ∧
    wC1.ps.currentField = some PRACTICE_FIELDS.length ∧
    pdGet wC1.ps.practiceData "content" = some "A" ∧
    (((handle_practice_callback wC1 "field_save" false).db.entries
        = wC1.db.entries ++ [⟨"A", "B", "C", "D", "E"⟩] ∧
      (handle_practice_callback wC1 "field_save" false).ps.mode = none ∧
      (handle_practice_callback wC1 "field_save" false).ps.currentField = none ∧
      (handle_practice_callback wC1 "field_save" false).ps.practiceData = [] ∧
      (handle_practice_callback wC1 "field_save" false).ps.currentAnswer = none ∧
      (handle_practice_callback wC1 "field_save" false).ps.confirmationMessageId = none ∧
      (handle_practice_callback wC1 "field_save" false).ps.fieldPromptMessageId = none ∧
      (handle_practice_callback wC1 "field_save" false).acc.parts = none ∧
      (handle_practice_callback wC1 "field_save" false).acc.timer = none ∧
      (handle_practice_callback wC1 "field_save" false).outs
        = wC1.outs ++ [Directive.deleteQueryMsg, Directive.saved]) ∧
     ((handle_practice_callback wC1 "field_save" true).db = wC1.db ∧
      (handle_practice_callback wC1 "field_save" true).ps = wC1.ps ∧
      (handle_practice_callback wC1 "field_save" true).acc = wC1.acc ∧
      (handle_practice_callback wC1 "field_save" true).outs
        = wC1.outs ++ [Directive.deleteQueryMsg, Directive.saveError])) :=
  ⟨rfl, rfl, by decide,
    commit_atomicity wC1 "A" "B" "C" "D" "E" rfl rfl (by decide) (by decide) (by decide)
      (by decide) (by decide)⟩

@[simp] theorem apply_practice_event_text (w : World) (t : String) (now : Nat) :
    apply_practice_event w (.textInput t now) = (handle_practice_input w t now).1 := rfl

@[simp] theorem apply_practice_event_voice (w : World) (r : Option String) (now : Nat) :
    apply_practice_event w (.voiceInput r now) = (handle_practice_voice w r now).1 := rfl

@[simp] theorem apply_practice_event_cb (w : World) (cb : String) (pf : Bool) :
    apply_practice_event w (.callback cb pf) = handle_practice_callback w cb pf := rfl

/-- In guided mode a form_* selection with a known value always moves the
index from i to i + 1, whether or not i + 1 is still in range. -/
theorem form_cb_proj (w : World) (cb : String) (pf : Bool) (i : Nat)
    (hm : w.ps.mode = some "guided_practice") (hcf : w.ps.currentField = some i)
    (hsw : str_starts_with cb "form_" = true) (hval : ¬ (form_map cb = "")) :
    (handle_practice_callback w cb pf).ps.currentField = some (i + 1) := by
  unfold handle_practice_callback
  rw [if_neg (not_not_intro hm), if_pos hsw, hcf]
  dsimp only [Option.getD_some]
  rw [if_neg hval]
  by_cases hlt : i + 1 < PRACTICE_FIELDS.length
  · rw [if_pos hlt]
    simp
  · rw [if_neg hlt]
    rfl

/-- C9 counterexample: a form_yes_accepting selection applied by the
practice handler to a session at index 5 (ReadyToSave) first moves the
index to 6 and only then fails on the out-of-range field access, so the
resulting index violates the claimed bound 0 ≤ i ≤ 5. -/
theorem form_callback_index_escape :
    wC9.ps.currentField = some 5 ∧
    (apply_practice_event wC9 (PracticeEvent.callback "form_yes_accepting" false)).ps.currentField
      = some 6 ∧
    ¬ (6 ≤ PRACTICE_FIELDS.length) := by
  refine ⟨rfl, by decide, by decide⟩

/-- C9 as amended: every enumerated practice event applied to a session
whose index satisfies 0 ≤ i ≤ 5 leaves the index absent (after a
successful save) or within 0 ≤ i ≤ 5, except that a form_* selection needs
i < 5: at i = 5 the form_ branch sets the index to 6 before failing on the
field lookup (and in the deployed router form_* callbacks never reach the
practice handler at all). -/
theorem field_index_bounds (w : World) (i : Nat) (e : PracticeEvent)
    (hcf : w.ps.currentField = some i) (hi : i ≤ PRACTICE_FIELDS.length)
    (he : claim_events e)
    (hform : ∀ cb pf, e = PracticeEvent.callback cb pf →
      str_starts_with cb "form_" = true → i < PRACTICE_FIELDS.length) :
    (apply_practice_event w e).ps.currentField = none ∨
    ∃ j, (apply_practice_event w e).ps.currentField = some j ∧
      j ≤ PRACTICE_FIELDS.length := by
  cases e with
  | textInput t now =>
    right
    refine ⟨i, ?_, hi⟩
    rw [apply_practice_event_text]; unfold handle_practice_input
    by_cases hmode : w.ps.mode ≠ some "guided_practice"
    · rw [if_pos hmode]; exact hcf
    · rw [if_neg hmode]
      rw [hcf]
      dsimp only [Option.getD_some]
      by_cases hlen : PRACTICE_FIELDS.length ≤ i
      · rw [if_pos hlen]; exact hcf
      · rw [if_neg hlen]; exact hcf
  | voiceInput r now =>
    right
    refine ⟨i, ?_, hi⟩
    rw [apply_practice_event_voice]; unfold handle_practice_voice
    by_cases hmode : w.ps.mode ≠ some "guided_practice"
    · rw [if_pos hmode]; exact hcf
    · rw [if_neg hmode]
      rw [hcf]
      dsimp only [Option.getD_some]
      by_cases hlen : PRACTICE_FIELDS.length ≤ i
      · rw [if_pos hlen]; exact hcf
      · rw [if_neg hlen]
        by_cases ht : r.getD "" = ""
        · rw [if_pos ht]; exact hcf
        · rw [if_neg ht]; exact hcf
  | callback cb pf =>
    have he' : cb = "field_ok" ∨ cb = "field_back" ∨ cb = "field_save" ∨
        cb = "form_yes_accepting" ∨ cb = "form_no_accepting" ∨
        cb = "form_yes_rejecting" ∨ cb = "form_no_rejecting" := he
    by_cases hmode : w.ps.mode = some "guided_practice"
    case neg =>
      right
      refine ⟨i, ?_, hi⟩
      rw [apply_practice_event_cb]; unfold handle_practice_callback
      rw [if_pos hmode]
      exact hcf
    case pos =>
    rcases he' with h | h | h | h | h | h | h
    · subst h
      right
      rw [apply_practice_event_cb]; unfold handle_practice_callback
      rw [if_neg (not_not_intro hmode)]
      rw [if_neg (show ¬ (str_starts_with "field_ok" "form_" = true) from by decide)]
      rw [if_pos rfl, hcf]
      dsimp only [Option.getD_some]
      by_cases hlen : PRACTICE_FIELDS.length ≤ i
      · rw [if_pos hlen]; exact ⟨i, hcf, hi⟩
      · rw [if_neg hlen]
        by_cases hblank : w.ps.currentAnswer.getD "" = ""
            ∨ py_strip (w.ps.currentAnswer.getD "") = ""
        · rw [if_pos hblank]; exact ⟨i, hcf, hi⟩
        · rw [if_neg hblank]
          by_cases hlt : i + 1 < PRACTICE_FIELDS.length
          · rw [if_pos hlt]
            exact ⟨i + 1, by simp, by omega⟩
          · rw [if_neg hlt]
            exact ⟨PRACTICE_FIELDS.length, rfl, le_refl _⟩
    · subst h
      right
      by_cases hz : i = 0
      · refine ⟨i, ?_, hi⟩
        rw [apply_practice_event_cb]; unfold handle_practice_callback
        rw [if_neg (not_not_intro hmode)]
        rw [if_neg (show ¬ (str_starts_with "field_back" "form_" = true) from by decide)]
        rw [if_neg (show ¬ (("field_back" : String) = "field_ok") from by decide)]
        rw [if_neg (show ¬ (("field_back" : String) = "field_save") from by decide)]
        rw [if_pos rfl, hcf]
        dsimp only [Option.getD_some]
        rw [if_pos hz]
        exact hcf
      · obtain ⟨-, hcf', -⟩ := field_back_proj w pf i hmode hcf hz
        exact ⟨i - 1, hcf', by omega⟩
    · subst h
      rw [apply_practice_event_cb]; unfold handle_practice_callback
      rw [if_neg (not_not_intro hmode)]
      rw [if_neg (show ¬ (str_starts_with "field_save" "form_" = true) from by decide)]
      rw [if_neg (show ¬ (("field_save" : String) = "field_ok") from by decide)]
      rw [if_pos rfl]
      unfold complete_practice create_entry
      cases pf with
      | true =>
        dsimp only
        right
        exact ⟨i, hcf, hi⟩
      | false =>
        dsimp only
        left
        rfl
    · subst h
      right
      have h5 : i < PRACTICE_FIELDS.length := hform _ _ rfl (by decide)
      exact ⟨i + 1, form_cb_proj w _ pf i hmode hcf (by decide) (by decide), by omega⟩
    · subst h
      right
      have h5 : i < PRACTICE_FIELDS.length := hform _ _ rfl (by decide)
      exact ⟨i + 1, form_cb_proj w _ pf i hmode hcf (by decide) (by decide), by omega⟩
    · subst h
      right
      have h5 : i < PRACTICE_FIELDS.length := hform _ _ rfl (by decide)
      exact ⟨i + 1, form_cb_proj w _ pf i hmode hcf (by decide) (by decide), by omega⟩
    · subst h
      right
      have h5 : i < PRACTICE_FIELDS.length := hform _ _ rfl (by decide)
      exact ⟨i + 1, form_cb_proj w _ pf i hmode hcf (by decide) (by decide), by omega⟩

/-- Witness for C9's amended theorem: a form selection at field 1. -/
theorem field_index_bounds_witness :
    wC7b.ps.currentField = some 1 ∧ 1 ≤ PRACTICE_FIELDS.length ∧
    claim_events (PracticeEvent.callback "form_yes_accepting" false) ∧
    ((apply_practice_event wC7b
        (PracticeEvent.callback "form_yes_accepting" false)).ps.currentField = none ∨
     ∃ j, (apply_practice_event wC7b
        (PracticeEvent.callback "form_yes_accepting" false)).ps.currentField = some j ∧
       j ≤ PRACTICE_FIELDS.length) :=
  ⟨rfl, by decide, Or.inr (Or.inr (Or.inr (Or.inl rfl))),
    field_index_bounds wC7b 1 (PracticeEvent.callback "form_yes_accepting" false) rfl
      (by decide) (Or.inr (Or.inr (Or.inr (Or.inl rfl)))) (fun _ _ _ _ => by decide)⟩

/-- C2 counterexample: handing the committer a ReadyToSave session whose
collected-answers map is empty does not fail with a structured error: one
entry whose five text fields are all the empty string is persisted and
the session is cleared. -/
theorem commit_missing_fields_cex :
    pdGet wC2.ps.practiceData "content" = none ∧
    (complete_practice wC2 false).db.entries = [⟨"", "", "", "", ""⟩] ∧
    (complete_practice wC2 false).outs = [Directive.saved] ∧
    (complete_practice wC2 false).ps.mode = none := by
  refine ⟨rfl, by decide, by decide, by decide⟩

/-- C2 as amended: the committer itself performs no defensive completeness
check (missing fields are persisted as empty strings), but every session
the deployed bot can actually bring to ReadyToSave has all five fields
collected and non-empty, so a wizard-reached save persists an entry whose
five text fields are all non-empty. -/
theorem commit_fields_nonempty (w : World) (hr : Reachable w)
    (hm : w.ps.mode = some "guided_practice")
    (hcf : w.ps.currentField = some PRACTICE_FIELDS.length) :
    ∃ e : Entry,
      (handle_practice_callback w "field_save" false).db.entries
        = w.db.entries ++ [e] ∧
      e.content ≠ "" ∧ e.attitude ≠ "" ∧ e.form ≠ "" ∧ e.body ≠ "" ∧ e.response ≠ "" := by
  obtain ⟨i, hcf', hi, hall⟩ := reachable_inv w hr hm
  rw [hcf'] at hcf
  injection hcf with hii
  subst hii
  obtain ⟨v0, hv0, hv0n⟩ := hall 0 (by decide)
  obtain ⟨v1, hv1, hv1n⟩ := hall 1 (by decide)
  obtain ⟨v2, hv2, hv2n⟩ := hall 2 (by decide)
  obtain ⟨v3, hv3, hv3n⟩ := hall 3 (by decide)
  obtain ⟨v4, hv4, hv4n⟩ := hall 4 (by decide)
  rw [fieldName_zero] at hv0
  rw [fieldName_one] at hv1
  rw [fieldName_two] at hv2
  rw [fieldName_three] at hv3
  rw [fieldName_four] at hv4
  refine ⟨⟨v0, v1, v2, v3, v4⟩, ?_, hv0n, hv1n, hv2n, hv3n, hv4n⟩
  have hdispatch : handle_practice_callback w "field_save" false
      = complete_practice (emit w .deleteQueryMsg) false := by
    unfold handle_practice_callback
    rw [if_neg (not_not_intro hm)]
    rw [if_neg (show ¬ (str_starts_with "field_save" "form_" = true) from by decide)]
    rw [if_neg (show ¬ (("field_save" : String) = "field_ok") from by decide)]
    rw [if_pos rfl]
  rw [hdispatch]
  unfold complete_practice create_entry
  dsimp only [emit]
  rw [hv0, hv1, hv2, hv3, hv4]
  dsimp only [Option.getD_some]
  rfl

/-- A wizard step (text answer, debounce flush, OK button) preserves
reachability. -/
theorem reachable_demo_step (w : World) (a : String) (h : Reachable w) :
    Reachable (demo_step w a) :=
  Reachable.cbStep _ "field_ok" false
    (Reachable.flushStep _ (Reachable.textStep _ a 0 h))

/-- The complete demo run is reachable. -/
theorem reachable_demo_full : Reachable demo_full :=
  reachable_demo_step _ "E" (reachable_demo_step _ "D" (reachable_demo_step _ "C"
    (reachable_demo_step _ "B" (reachable_demo_step _ "A"
      (Reachable.start idle_world false)))))

/-- Witness for C2's amended theorem: the demo run reaches ReadyToSave and
its save persists one fully populated entry. -/
theorem commit_fields_nonempty_witness :
    Reachable demo_full ∧
    demo_full.ps.mode = some "guided_practice" ∧
    demo_full.ps.currentField = some PRACTICE_FIELDS.length ∧
    (∃ e : Entry,
      (handle_practice_callback demo_full "field_save" false).db.entries
        = demo_full.db.entries ++ [e] ∧
      e.content ≠ "" ∧ e.attitude ≠ "" ∧ e.form ≠ "" ∧ e.body ≠ "" ∧ e.response ≠ "") :=
  ⟨reachable_demo_full, by decide, by decide,
    commit_fields_nonempty demo_full reachable_demo_full (by decide) (by decide)⟩

/-- C8: for a live buffer with a pending timer, a field_back cancellation
that logically precedes the flush-task body guarantees the answer-ready
confirmation never fires, in every interleaving of the cancellation with
the timer (before the handle fires, or between firing and the task body);
a cancellation issued after the task already ran is a state no-op. -/
theorem cancellation_correctness (w : World) (l : List String) (ft i : Nat)
    (hp : w.acc.parts = some l) (ht : w.acc.timer = some ft)
    (houts : w.outs = [])
    (hcf : w.ps.currentField = some i) (hi : i < PRACTICE_FIELDS.length)
    (hfp : w.ps.fieldPromptMessageId = none)
    (hcm : w.ps.confirmationMessageId = none) :
    confirmation_count (run_race ⟨w, false⟩
        [AccEvent.cancelBack, AccEvent.timerFire, AccEvent.taskRun]).w.outs = 0 ∧
    confirmation_count (run_race ⟨w, false⟩
        [AccEvent.timerFire, AccEvent.cancelBack, AccEvent.taskRun]).w.outs = 0 ∧
    acc_race_step (run_race ⟨w, false⟩ [AccEvent.timerFire, AccEvent.taskRun])
        AccEvent.cancelBack
      = run_race ⟨w, false⟩ [AccEvent.timerFire, AccEvent.taskRun] := by
  refine ⟨?_, ?_, ?_⟩
  · have e1 : run_race ⟨w, false⟩ [AccEvent.cancelBack, AccEvent.timerFire, AccEvent.taskRun]
        = ⟨{ w with acc := { parts := none, timer := none } }, false⟩ := by
      simp [run_race, acc_race_step]
    rw [e1, houts]
    rfl
  · have e2 : run_race ⟨w, false⟩ [AccEvent.timerFire, AccEvent.cancelBack, AccEvent.taskRun]
        = ⟨send_field_confirmation { w with acc := { parts := none, timer := none } },
           false⟩ := by
      simp [run_race, acc_race_step, ht]
    rw [e2]
    have e2' : send_field_confirmation { w with acc := { parts := none, timer := none } }
        = { w with acc := { parts := none, timer := none } } := by
      unfold send_field_confirmation
      rfl
    rw [e2', houts]
    rfl
  · have e3 : run_race ⟨w, false⟩ [AccEvent.timerFire, AccEvent.taskRun]
        = ⟨send_field_confirmation w, false⟩ := by
      simp [run_race, acc_race_step, ht]
    rw [e3, send_field_confirmation_eval w l i hp hcf hi hfp hcm]
    rfl

/-- Witness for C8 at a concrete buffered session. -/
theorem cancellation_correctness_witness :
    wC8.acc.parts = some ["Hello", "World"] ∧
    wC8.acc.timer = some 7 ∧
    (confirmation_count (run_race ⟨wC8, false⟩
        [AccEvent.cancelBack, AccEvent.timerFire, AccEvent.taskRun]).w.outs = 0 ∧
     confirmation_count (run_race ⟨wC8, false⟩
        [AccEvent.timerFire, AccEvent.cancelBack, AccEvent.taskRun]).w.outs = 0 ∧
     acc_race_step (run_race ⟨wC8, false⟩ [AccEvent.timerFire, AccEvent.taskRun])
        AccEvent.cancelBack
       = run_race ⟨wC8, false⟩ [AccEvent.timerFire, AccEvent.taskRun]) :=
  ⟨rfl, rfl,
    cancellation_correctness wC8 ["Hello", "World"] 7 0 rfl rfl rfl rfl (by decide)
      rfl rfl⟩

/-- Submissions each arriving before the pending flush only accumulate:
the session, directives and store are untouched, the buffer grows by the
trimmed chunks in order, and the timer follows the last submission. -/
theorem foldl_submits (subs : List (Nat × String)) :
    ∀ (w : World) (i : Nat) (p : List String) (last : Nat × String),
      w.ps.mode = some "guided_practice" →
      w.ps.currentField = some i →
      i < PRACTICE_FIELDS.length →
      w.acc.parts = some p →
      w.acc.timer = some (last.1 + FIELD_DEBOUNCE_DELAY) →
      List.Chain (fun x y => y.1 < x.1 + FIELD_DEBOUNCE_DELAY) last subs →
      (subs.foldl debounce_step w).ps = w.ps ∧
      (subs.foldl debounce_step w).outs = w.outs ∧
      (subs.foldl debounce_step w).db = w.db ∧
      (subs.foldl debounce_step w).nextMsgId = w.nextMsgId ∧
      (subs.foldl debounce_step w).acc.parts
        = some (p ++ subs.map (fun s => py_strip s.2)) ∧
      ∃ tl, (subs.foldl debounce_step w).acc.timer
        = some (tl + FIELD_DEBOUNCE_DELAY) := by
  induction subs with
  | nil =>
    intro w i p last _ _ _ hp ht _
    exact ⟨rfl, rfl, rfl, rfl, by simp [hp], ⟨last.1, ht⟩⟩
  | cons s rest ih =>
    intro w i p last hm hcf hi hp ht hchain
    cases hchain with
    | cons h1 h2 =>
    have hstep : debounce_step w s
        = { w with acc := { parts := some (p ++ [py_strip s.2]),
                            timer := some (s.1 + FIELD_DEBOUNCE_DELAY) } } := by
      unfold debounce_step flush_if_due
      rw [ht]
      dsimp only
      rw [if_neg (show ¬ (last.1 + FIELD_DEBOUNCE_DELAY ≤ s.1) from not_le.mpr h1)]
      unfold handle_practice_input
      rw [if_neg (not_not_intro hm), hcf]
      dsimp only [Option.getD_some]
      rw [if_neg (not_le.mpr hi), hp]
    rw [List.foldl_cons, hstep]
    obtain ⟨h1', h2', h3', h4', h5', tl, h6'⟩ :=
      ih { w with acc := { parts := some (p ++ [py_strip s.2]),
                           timer := some (s.1 + FIELD_DEBOUNCE_DELAY) } }
        i (p ++ [py_strip s.2]) s hm hcf hi rfl rfl h2
    refine ⟨h1', h2', h3', h4', ?_, tl, h6'⟩
    rw [h5']
    simp

/-- C3: in a quiet session with an empty accumulator, a non-empty burst of
already-trimmed text submissions each arriving less than the debounce
delay after the previous one produces exactly one answer-ready
confirmation, whose text is the chunks joined in submission order with
newlines, stored as the pending answer, after which the buffer and timer
are cleared. -/
theorem debounce_merge (w : World) (i : Nat) (s0 : Nat × String)
    (rest : List (Nat × String))
    (hm : w.ps.mode = some "guided_practice")
    (hcf : w.ps.currentField = some i) (hi : i < PRACTICE_FIELDS.length)
    (hca : w.ps.currentAnswer = none)
    (hparts : w.acc.parts = none) (htimer : w.acc.timer = none)
    (hfp : w.ps.fieldPromptMessageId = none)
    (hcm : w.ps.confirmationMessageId = none)
    (houts : w.outs = [])
    (hchain : List.Chain (fun x y => y.1 < x.1 + FIELD_DEBOUNCE_DELAY) s0 rest)
    (htrim : ∀ x ∈ (s0 :: rest), py_strip (x : Nat × String).2 = x.2) :
    (run_debounce w (s0 :: rest)).outs
      = [Directive.showConfirmation (join_parts ((s0 :: rest).map (fun x => x.2)))] ∧
    (run_debounce w (s0 :: rest)).ps.currentAnswer
      = some (join_parts ((s0 :: rest).map (fun x => x.2))) ∧
    (run_debounce w (s0 :: rest)).acc.parts = none ∧
    (run_debounce w (s0 :: rest)).acc.timer = none := by
  have hstep0 : debounce_step w s0
      = { w with acc := { parts := some [py_strip s0.2],
                          timer := some (s0.1 + FIELD_DEBOUNCE_DELAY) } } := by
    unfold debounce_step flush_if_due
    rw [htimer]
    unfold handle_practice_input
    rw [if_neg (not_not_intro hm), hcf]
    dsimp only [Option.getD_some]
    rw [if_neg (not_le.mpr hi), hparts, hca]
    rfl
  unfold run_debounce
  rw [List.foldl_cons, hstep0]
  obtain ⟨h1', h2', h3', h4', h5', tl, h6'⟩ :=
    foldl_submits rest
      { w with acc := { parts := some [py_strip s0.2],
                        timer := some (s0.1 + FIELD_DEBOUNCE_DELAY) } }
      i [py_strip s0.2] s0 hm hcf hi rfl rfl hchain
  have hL : ([py_strip s0.2] ++ rest.map (fun s => py_strip s.2) : List String)
      = (s0 :: rest).map (fun x => x.2) := by
    have hh0 : py_strip s0.2 = s0.2 := htrim s0 (by simp)
    have hhr : rest.map (fun s => py_strip s.2) = rest.map (fun x => x.2) :=
      List.map_congr_left (fun x hx => htrim x (by simp [hx]))
    simp [hh0, hhr]
  rw [hL] at h5'
  have hWcf : (rest.foldl debounce_step
      { w with acc := { parts := some [py_strip s0.2],
                        timer := some (s0.1 + FIELD_DEBOUNCE_DELAY) } }).ps.currentField
      = some i := by rw [h1']; exact hcf
  have hWfp : (rest.foldl debounce_step
      { w with acc := { parts := some [py_strip s0.2],
                        timer := some (s0.1 + FIELD_DEBOUNCE_DELAY) } }).ps.fieldPromptMessageId
      = none := by rw [h1']; exact hfp
  have hWcm : (rest.foldl debounce_step
      { w with acc := { parts := some [py_strip s0.2],
                        timer := some (s0.1 + FIELD_DEBOUNCE_DELAY) } }).ps.confirmationMessageId
      = none := by rw [h1']; exact hcm
  unfold final_flush
  rw [h6']
  dsimp only
  rw [send_field_confirmation_eval _ _ i h5' hWcf hi hWfp hWcm]
  refine ⟨?_, ?_, rfl, rfl⟩
  · dsimp only
    rw [h2', houts]
    rfl
  · rfl

/-- Witness for C3: three chunks 0.2 s apart merge into one confirmation. -/
theorem debounce_merge_witness :
    start_session.ps.currentField = some 0 ∧
    List.Chain (fun x y => y.1 < x.1 + FIELD_DEBOUNCE_DELAY)
      ((0, "Hello") : Nat × String) [(2, "World"), (4, "Test")] ∧
    ((run_debounce start_session [(0, "Hello"), (2, "World"), (4, "Test")]).outs
      = [Directive.showConfirmation (join_parts
          (([(0, "Hello"), (2, "World"), (4, "Test")] : List (Nat × String)).map
            (fun x => x.2)))] ∧
     (run_debounce start_session [(0, "Hello"), (2, "World"), (4, "Test")]).ps.currentAnswer
      = some (join_parts
          (([(0, "Hello"), (2, "World"), (4, "Test")] : List (Nat × String)).map
            (fun x => x.2))) ∧
     (run_debounce start_session [(0, "Hello"), (2, "World"), (4, "Test")]).acc.parts = none ∧
     (run_debounce start_session [(0, "Hello"), (2, "World"), (4, "Test")]).acc.timer = none) :=
  ⟨rfl,
    List.Chain.cons (by decide) (List.Chain.cons (by decide) List.Chain.nil),
    debounce_merge start_session 0 (0, "Hello") [(2, "World"), (4, "Test")]
      rfl rfl (by decide) rfl rfl rfl rfl rfl rfl
      (List.Chain.cons (by decide) (List.Chain.cons (by decide) List.Chain.nil))
      (by decide)⟩

/-- C4: starting at field 0 with an empty session, confirming the five
fields in order with trimmed non-empty answers a0..a4 and then pressing
back five times returns the wizard to field 0 with the pending answer
equal to a0 while the collected-answers map still holds a1..a4 (and a0)
under their field names: goBack never erases forward answers. -/
theorem forward_back_roundtrip (a0 a1 a2 a3 a4 : String)
    (h0 : py_strip a0 = a0) (h1 : py_strip a1 = a1) (h2 : py_strip a2 = a2)
    (h3 : py_strip a3 = a3) (h4 : py_strip a4 = a4)
    (n0 : a0 ≠ "") (n1 : a1 ≠ "") (n2 : a2 ≠ "") (n3 : a3 ≠ "") (n4 : a4 ≠ "") :
    (go_back (go_back (go_back (go_back (go_back
      (confirm_with (confirm_with (confirm_with (confirm_with (confirm_with
        start_session a0) a1) a2) a3) a4)))))).ps.currentField = some 0 ∧
    (go_back (go_back (go_back (go_back (go_back
      (confirm_with (confirm_with (confirm_with (confirm_with (confirm_with
        start_session a0) a1) a2) a3) a4)))))).ps.currentAnswer = some a0 ∧
    pdGet (go_back (go_back (go_back (go_back (go_back
      (confirm_with (confirm_with (confirm_with (confirm_with (confirm_with
        start_session a0) a1) a2) a3) a4)))))).ps.practiceData "attitude" = some a1 ∧
    pdGet (go_back (go_back (go_back (go_back (go_back
      (confirm_with (confirm_with (confirm_with (confirm_with (confirm_with
        start_session a0) a1) a2) a3) a4)))))).ps.practiceData "form" = some a2 ∧
    pdGet (go_back (go_back (go_back (go_back (go_back
      (confirm_with (confirm_with (confirm_with (confirm_with (confirm_with
        start_session a0) a1) a2) a3) a4)))))).ps.practiceData "body" = some a3 ∧
    pdGet (go_back (go_back (go_back (go_back (go_back
      (confirm_with (confirm_with (confirm_with (confirm_with (confirm_with
        start_session a0) a1) a2) a3) a4)))))).ps.practiceData "response" = some a4 := by
  set_option maxHeartbeats 4000000 in
  simp [go_back, confirm_with, start_session, handle_practice_callback,
    handle_practice_input, send_field_confirmation, send_field_prompt, emit, sendMsg,
    pdSet, pdGet, h0, h1, h2, h3, h4, n0, n1, n2, n3, n4]

/-- Witness for C4 with the concrete answers A..E. -/
theorem forward_back_roundtrip_witness :
    py_strip "A" = "A" ∧ ("A" : String) ≠ "" ∧
    ((go_back (go_back (go_back (go_back (go_back
      (confirm_with (confirm_with (confirm_with (confirm_with (confirm_with
        start_session "A") "B") "C") "D") "E")))))).ps.currentField = some 0 ∧
     (go_back (go_back (go_back (go_back (go_back
      (confirm_with (confirm_with (confirm_with (confirm_with (confirm_with
        start_session "A") "B") "C") "D") "E")))))).ps.currentAnswer = some "A" ∧
     pdGet (go_back (go_back (go_back (go_back (go_back
      (confirm_with (confirm_with (confirm_with (confirm_with (confirm_with
        start_session "A") "B") "C") "D") "E")))))).ps.practiceData "attitude" = some "B" ∧
     pdGet (go_back (go_back (go_back (go_back (go_back
      (confirm_with (confirm_with (confirm_with (confirm_with (confirm_with
        start_session "A") "B") "C") "D") "E")))))).ps.practiceData "form" = some "C" ∧
     pdGet (go_back (go_back (go_back (go_back (go_back
      (confirm_with (confirm_with (confirm_with (confirm_with (confirm_with
        start_session "A") "B") "C") "D") "E")))))).ps.practiceData "body" = some "D" ∧
     pdGet (go_back (go_back (go_back (go_back (go_back
      (confirm_with (confirm_with (confirm_with (confirm_with (confirm_with
        start_session "A") "B") "C") "D") "E")))))).ps.practiceData "response" = some "E") :=
  ⟨by decide, by decide,
    forward_back_roundtrip "A" "B" "C" "D" "E"
      (by decide) (by decide) (by decide) (by decide) (by decide)
      (by decide) (by decide) (by decide) (by decide) (by decide)⟩

end Kick
